import Mathlib

/-!
Verification model of the lark-webhook-notify card builder.

The repository's library package is not present under src/ (only its tests
and examples are), so the data model and operations below are modelled from
the specification, with observable values pinned by the repository's tests.
-/

/-- A JSON-like value: the nested key-value structures the block constructors
produce.  `null` models Python's `None`; the spec requires that omitted
optional fields are absent, never `null`. -/
inductive Json where
  | null : Json
  | bool (b : Bool) : Json
  | num (n : Int) : Json
  | str (s : String) : Json
  | arr (xs : List Json) : Json
  | obj (kvs : List (String × Json)) : Json

/-- Look up the value stored under key `k` of a JSON object. -/
def Json.getKey : Json → String → Option Json
  | .obj kvs, k => (kvs.find? (fun kv => kv.1 == k)).map (fun kv => kv.2)
  | _, _ => none

/-- The list of keys of a JSON object, in order. -/
def Json.keys : Json → List String
  | .obj kvs => kvs.map (fun kv => kv.1)
  | _ => []

mutual

/-- Whether a `null` occurs anywhere inside a JSON value. -/
def Json.hasNull : Json → Bool
  | .null => true
  | .bool _ => false
  | .num _ => false
  | .str _ => false
  | .arr xs => Json.anyNull xs
  | .obj kvs => Json.anyNullKV kvs

/-- Whether a `null` occurs anywhere inside a list of JSON values. -/
def Json.anyNull : List Json → Bool
  | [] => false
  | x :: xs => Json.hasNull x || Json.anyNull xs

/-- Whether a `null` occurs anywhere inside the values of a key-value list. -/
def Json.anyNullKV : List (String × Json) → Bool
  | [] => false
  | (_, v) :: kvs => Json.hasNull v || Json.anyNullKV kvs

end

namespace Blocks

/-- Modelled from the spec: the `plain_text` text wrapper used by the header
and collapsible-panel constructors of the missing `blocks.py` (wire shape of
section 6). -/
def plainText (content : String) : Json :=
  .obj [("tag", .str "plain_text"), ("content", .str content)]

/-- Modelled from the spec: block constructor `markdown` of the missing
`blocks.py`.  Wire shape per section 6; defaults (left alignment, normal
size, zero margin) per section 4.1, pinned by `test_markdown_defaults`. -/
def markdown (content : String) (text_align : String := "left")
    (text_size : String := "normal") (margin : String := "0px 0px 0px 0px") :
    Json :=
  .obj [("tag", .str "markdown"), ("content", .str content),
        ("text_align", .str text_align), ("text_size", .str text_size),
        ("margin", .str margin)]

/-- Modelled from the spec: block constructor `column` of the missing
`blocks.py`.  Wire shape per section 6; per section 4.1 a weight is carried
only when the weighted width is requested, so the optional `weight` key is
absent for other widths. -/
def column (elements : List Json) (width : String := "auto")
    (weight : Int := 1) : Json :=
  .obj ([("tag", .str "column"), ("elements", .arr elements),
         ("width", .str width)]
    ++ (if width = "weighted" then [("weight", .num weight)] else []))

/-- Modelled from the spec: block constructor `column_set` of the missing
`blocks.py`, wire shape per section 6. -/
def column_set (columns : List Json) : Json :=
  .obj [("tag", .str "column_set"), ("columns", .arr columns)]

/-- Modelled from the spec: block constructor `collapsible_panel` of the
missing `blocks.py`, wire shape per section 6. -/
def collapsible_panel (title : String) (elements : List Json)
    (expanded : Bool := false) : Json :=
  .obj [("tag", .str "collapsible_panel"), ("expanded", .bool expanded),
        ("header", .obj [("title", plainText title)]),
        ("elements", .arr elements)]

/-- Modelled from the spec: block constructor `header` of the missing
`blocks.py`.  Wire shape per section 6: mandatory title and template, and
the optional subtitle, text-tag list and padding are keys that are entirely
absent when omitted (section 3 invariants,
`test_header_optional_fields_omitted`). -/
def header (title : String) (template : String)
    (subtitle : Option String := none)
    (text_tag_list : Option (List Json) := none)
    (padding : Option String := none) : Json :=
  .obj ([("title", plainText title), ("template", .str template)]
    ++ (match subtitle with
        | some s => [("subtitle", plainText s)]
        | none => [])
    ++ (match text_tag_list with
        | some l => [("text_tag_list", .arr l)]
        | none => [])
    ++ (match padding with
        | some p => [("padding", .str p)]
        | none => []))

/-- Modelled from the spec: block constructor `text_tag` of the missing
`blocks.py` (a colored text tag shown next to the header title). -/
def text_tag (content : String) (color : String) : Json :=
  .obj [("tag", .str "text_tag"),
        ("text", plainText content),
        ("color", .str color)]

/-- Modelled from the spec: the style-configuration constructor
`config_textsize_normal_v2` of the missing `blocks.py`; the mobile entry is
pinned by `test_card_assembly_with_config`. -/
def config_textsize_normal_v2 : Json :=
  .obj [("style", .obj [("text_size", .obj [("normal_v2",
    .obj [("default", .str "normal"), ("pc", .str "normal"),
          ("mobile", .str "heading")])])])]

/-- Modelled from the spec: the card assembler `card` of the missing
`blocks.py` (section 4.2): wraps the body blocks in a body container,
attaches header and style config, stamps the schema version string.  Wire
shape per section 6. -/
def card (elements : List Json) (header : Json) (schema : String)
    (config : Json) : Json :=
  .obj [("schema", .str schema), ("header", header),
        ("body", .obj [("elements", .arr elements)]),
        ("config", config)]

/-- Modelled from the spec: block constructor `template_reference` of the
missing `blocks.py`, wire shape per section 6. -/
def template_reference (template_id : String)
    (template_version_name : String) (template_variable : Json) : Json :=
  .obj [("type", .str "template"),
        ("data", .obj [("template_id", .str template_id),
                       ("template_version_name", .str template_version_name),
                       ("template_variable", template_variable)])]

end Blocks

/-- Modelled from the spec: the status-to-color resolution of the missing
`builder.py` (section 4.3): running/pending map to wathet, success/completed
to green, failed/error to red, warning to orange, info to blue, and any
unrecognized status maps to a fixed fallback color (the spec leaves the
fallback color unnamed; it is modelled here as blue). -/
def statusColor (s : String) : String :=
  if s = "running" ∨ s = "pending" then "wathet"
  else if s = "success" ∨ s = "completed" then "green"
  else if s = "failed" ∨ s = "error" then "red"
  else if s = "warning" then "orange"
  else if s = "info" then "blue"
  else "blue"

/-- Modelled from the spec: color resolution of the header operation
(section 4.3): if an explicit color is given, use it; else derive from the
status via the fixed mapping; with neither, use the fallback color. -/
def resolveColor (status : Option String) (color : Option String) : String :=
  match color with
  | some c => c
  | none =>
    match status with
    | some s => statusColor s
    | none => "blue"

/-- Modelled from the spec: the `CardBuilder` state of the missing
`builder.py` (section 4.3): an ordered list of finalized body blocks,
zero-or-one in-progress column-set (itself an ordered list of column
blocks), zero-or-one header block, and a language tag. -/
structure CardBuilder where
  language : String
  headerBlock : Option Json
  body : List Json
  openColumns : Option (List Json)

/-- Modelled from the spec: a fresh `CardBuilder` in its initial state
(no header, empty body, no open column-set); the language tag defaults to
the default locale, pinned by the tests to the string zh. -/
def CardBuilder.new (language : String := "zh") : CardBuilder :=
  { language := language, headerBlock := none, body := [], openColumns := none }

/-- Modelled from the spec: the `GenericCardTemplate` produced by `build()`:
it carries the builder's language tag and, via `generate()`, the assembled
card document. -/
structure GenericCardTemplate where
  language : String
  card : Json

/-- Modelled from the spec: `GenericCardTemplate.generate()` returns the
assembled card document. -/
def GenericCardTemplate.generate (t : GenericCardTemplate) : Json :=
  t.card

/-- The state-error message raised when a top-level block is appended while
a column-set context is open (the spec requires the rejection but fixes no
message text for this guard). -/
def openColumnsMsg : String :=
  "Close the column context before appending other blocks"

/-- Modelled from the spec: the internal append of one finalized top-level
block to the body list; rejected with a state error while a column-set
context is open (sections 4.3 and 7). -/
def CardBuilder.appendBlock (b : CardBuilder) (blk : Json) :
    Except String CardBuilder :=
  match b.openColumns with
  | some _ => .error openColumnsMsg
  | none => .ok { b with body := b.body ++ [blk] }

/-- The single markdown line a metadata pair is formatted as. -/
def metaLine (key : String) (value : String) : String :=
  "**" ++ key ++ ":** " ++ value

/-- Modelled from the spec: `CardBuilder.metadata(key, value)` appends one
metadata display block, formatted as a single markdown line (section 4.3,
section 8 example scenario). -/
def CardBuilder.metadata (b : CardBuilder) (key : String) (value : String) :
    Except String CardBuilder :=
  b.appendBlock (Blocks.markdown (metaLine key value))

/-- Displayed label of a metadata-block field name: underscores become
spaces and each word is capitalized (pinned by `test_metadata_block`). -/
def titleize (key : String) : String :=
  String.intercalate " " ((key.splitOn "_").map String.capitalize)

/-- Modelled from the spec: `CardBuilder.metadata_block(**fields)` appends a
single block combining multiple key-to-value lines (section 4.3). -/
def CardBuilder.metadata_block (b : CardBuilder)
    (fields : List (String × String)) : Except String CardBuilder :=
  b.appendBlock (Blocks.markdown (String.intercalate "\n"
    (fields.map (fun kv => metaLine (titleize kv.1) kv.2))))

/-- Modelled from the spec: `CardBuilder.markdown(text)` appends a markdown
block (section 4.3; style overrides take their defaults here). -/
def CardBuilder.markdown (b : CardBuilder) (text : String) :
    Except String CardBuilder :=
  b.appendBlock (Blocks.markdown text)

/-- Modelled from the spec: the visual separator block appended by
`divider()`; the spec pins only that exactly one block is appended, its tag
is modelled as the horizontal-rule tag. -/
def dividerBlock : Json :=
  .obj [("tag", .str "hr")]

/-- Modelled from the spec: `CardBuilder.divider()` appends a visual
separator block (section 4.3). -/
def CardBuilder.divider (b : CardBuilder) : Except String CardBuilder :=
  b.appendBlock dividerBlock

/-- Modelled from the spec: `CardBuilder.collapsible(title, content,
expanded)` appends a collapsible-panel block holding the content as a
single markdown child (section 4.3). -/
def CardBuilder.collapsible (b : CardBuilder) (title : String)
    (content : String) (expanded : Bool := false) :
    Except String CardBuilder :=
  b.appendBlock (Blocks.collapsible_panel title [Blocks.markdown content]
    expanded)

/-- Modelled from the spec: `CardBuilder.add_block(rawBlock)` appends a
pre-constructed block verbatim, still subject to the column-set-open rule
(section 4.3). -/
def CardBuilder.add_block (b : CardBuilder) (blk : Json) :
    Except String CardBuilder :=
  b.appendBlock blk

/-- Modelled from the spec: `CardBuilder.header(...)` sets the header block
using the resolved color; callable multiple times, last call wins, never
fails, and does not change the column-set state (section 4.3). -/
def CardBuilder.header (b : CardBuilder) (title : String)
    (status : Option String := none) (color : Option String := none)
    (subtitle : Option String := none) : CardBuilder :=
  let hdr := Blocks.header title (resolveColor status color) subtitle
  { b with headerBlock := some hdr }

/-- Modelled from the spec: `CardBuilder.columns()` opens a new column-set
context; it may be called only when none is open (section 4.3). -/
def CardBuilder.columns (b : CardBuilder) : Except String CardBuilder :=
  match b.openColumns with
  | some _ => .error "Unclosed column context"
  | none => .ok { b with openColumns := some [] }

/-- The column block a `column(title, value, width, weight)` call
accumulates: one column holding the title and value as a markdown child. -/
def colBlock (title : String) (value : String) (width : String)
    (weight : Int) : Json :=
  Blocks.column [Blocks.markdown ("**" ++ title ++ "**\n" ++ value)]
    width weight

/-- Modelled from the spec: `CardBuilder.column(title, value, width,
weight)` appends one column to the currently open column-set and fails with
the pinned state error when none is open (section 4.3). -/
def CardBuilder.column (b : CardBuilder) (title : String) (value : String)
    (width : String := "auto") (weight : Int := 1) :
    Except String CardBuilder :=
  match b.openColumns with
  | none => .error "Call .columns() before .column()"
  | some acc =>
    .ok { b with openColumns := some (acc ++ [colBlock title value width weight]) }

/-- Modelled from the spec: `CardBuilder.end_columns()` closes the open
column-set, wraps its accumulated columns into one column_set block appended
to the body, and fails with the pinned state error when none is open
(section 4.3). -/
def CardBuilder.end_columns (b : CardBuilder) : Except String CardBuilder :=
  match b.openColumns with
  | none => .error "No column context to end"
  | some acc =>
    .ok { b with body := b.body ++ [Blocks.column_set acc],
                 openColumns := none }

/-- Modelled from the spec: `CardBuilder.build()` finalizes: it fails with
the pinned state error while a column-set is still open, and otherwise
assembles the document from the accumulated header (a default empty header
when none was set), the body list and the style config, stamping schema
version 2.0 (sections 4.2, 4.3 and 6). -/
def CardBuilder.build (b : CardBuilder) : Except String GenericCardTemplate :=
  match b.openColumns with
  | some _ => .error "Unclosed column context"
  | none =>
    .ok { language := b.language,
          card := Blocks.card b.body
            (b.headerBlock.getD (Blocks.header "" "blue"))
            "2.0" Blocks.config_textsize_normal_v2 }

/-- Modelled from the spec: `create_custom_template(language)` returns a
fresh `CardBuilder` with the given language tag, defaulting to zh (pinned by
`TestCreateCustomTemplate`). -/
def create_custom_template (language : String := "zh") : CardBuilder :=
  CardBuilder.new language

/-- One public builder call, so that whole call sequences on a
`CardBuilder` can be reasoned about. -/
inductive Op where
  | header (title : String) (status : Option String) (color : Option String)
      (subtitle : Option String) : Op
  | metadata (key : String) (value : String) : Op
  | metadata_block (fields : List (String × String)) : Op
  | markdown (text : String) : Op
  | divider : Op
  | collapsible (title : String) (content : String) (expanded : Bool) : Op
  | add_block (blk : Json) : Op
  | columns : Op
  | column (title : String) (value : String) (width : String)
      (weight : Int) : Op
  | end_columns : Op

/-- Dispatch one builder call on the current builder state. -/
def step (b : CardBuilder) : Op → Except String CardBuilder
  | .header t s c sub => .ok (b.header t s c sub)
  | .metadata k v => b.metadata k v
  | .metadata_block fs => b.metadata_block fs
  | .markdown t => b.markdown t
  | .divider => b.divider
  | .collapsible t c e => b.collapsible t c e
  | .add_block blk => b.add_block blk
  | .columns => b.columns
  | .column t v w wt => b.column t v w wt
  | .end_columns => b.end_columns

/-- Run a sequence of builder calls, stopping at the first state error:
every state error is raised synchronously at the offending call. -/
def runOps (b : CardBuilder) : List Op → Except String CardBuilder
  | [] => .ok b
  | op :: ops =>
    match step b op with
    | .ok b2 => runOps b2 ops
    | .error e => .error e

/-- The arguments of one `column(title, value, width, weight)` call. -/
structure ColArgs where
  title : String
  value : String
  width : String
  weight : Int

/-- The column block one `column(...)` call with these arguments
accumulates. -/
def ColArgs.block (a : ColArgs) : Json :=
  colBlock a.title a.value a.width a.weight

/-- One successful top-level append on the builder: a single high-level
append call, or a completed columns-to-end_columns group counted as one
appended block. -/
inductive TopCall where
  | metadata (key : String) (value : String) : TopCall
  | metadata_block (fields : List (String × String)) : TopCall
  | markdown (text : String) : TopCall
  | divider : TopCall
  | collapsible (title : String) (content : String) (expanded : Bool) : TopCall
  | colgroup (cols : List ColArgs) : TopCall

/-- The single body block a top-level append call contributes. -/
def TopCall.blockOf : TopCall → Json
  | .metadata k v => Blocks.markdown (metaLine k v)
  | .metadata_block fs => Blocks.markdown (String.intercalate "\n"
      (fs.map (fun kv => metaLine (titleize kv.1) kv.2)))
  | .markdown t => Blocks.markdown t
  | .divider => dividerBlock
  | .collapsible t c e => Blocks.collapsible_panel t [Blocks.markdown c] e
  | .colgroup cols => Blocks.column_set (cols.map ColArgs.block)

/-- The builder calls a top-level append call expands to. -/
def TopCall.toOps : TopCall → List Op
  | .metadata k v => [Op.metadata k v]
  | .metadata_block fs => [Op.metadata_block fs]
  | .markdown t => [Op.markdown t]
  | .divider => [Op.divider]
  | .collapsible t c e => [Op.collapsible t c e]
  | .colgroup cols => Op.columns ::
      (cols.map (fun a => Op.column a.title a.value a.width a.weight)
        ++ [Op.end_columns])

/-- The builder calls a whole sequence of top-level appends expands to. -/
def callsToOps (script : List TopCall) : List Op :=
  (script.map TopCall.toOps).flatten

/-- The header template color recorded in an assembled card document. -/
def headerTemplateOf (doc : Json) : Option Json :=
  (doc.getKey "header").bind (fun h => h.getKey "template")

namespace WorkflowTemplates

/-- Build a template from a header-initialized builder and a list of
top-level appends, the fixed composition shape shared by the workflow
factories (section 4.4). -/
def buildFrom (b : CardBuilder) (calls : List TopCall) :
    GenericCardTemplate :=
  match (runOps b (callsToOps calls)).bind CardBuilder.build with
  | .ok t => t
  | .error _ => { language := b.language, card := Json.null }

/-- Modelled from the spec: workflow factory `network_submission_start` of
the missing `templates.py` (section 4.4, a fixed composition of builder
calls); its header uses the running status, whose color is pinned to wathet
by `test_network_submission_start`. -/
def network_submission_start (network_set_name : String)
    (network_type : String) (group : String) (pfx : String) :
    GenericCardTemplate :=
  buildFrom ((CardBuilder.new "zh").header "Network Submission Started"
      (some "running") none none)
    [TopCall.metadata "Network Set" network_set_name,
     TopCall.metadata "Type" network_type,
     TopCall.metadata "Group" group,
     TopCall.metadata "Prefix" pfx]

/-- Modelled from the spec: workflow factory `network_submission_complete`
of the missing `templates.py`; its header uses the success status, whose
color is pinned to green by `test_network_submission_complete`. -/
def network_submission_complete (network_set_name : String)
    (submitted_count : Nat) (group : String) (pfx : String)
    (duration : String) : GenericCardTemplate :=
  buildFrom ((CardBuilder.new "zh").header "Network Submission Complete"
      (some "success") none none)
    [TopCall.metadata "Network Set" network_set_name,
     TopCall.metadata "Submitted" (toString submitted_count),
     TopCall.metadata "Group" group,
     TopCall.metadata "Prefix" pfx,
     TopCall.metadata "Duration" duration]

/-- Modelled from the spec: workflow factory `network_submission_failure`
of the missing `templates.py`; its header uses the failed status, whose
color is pinned to red by `test_network_submission_failure`. -/
def network_submission_failure (network_set_name : String)
    (error_message : String) (submitted_count : Nat) (group : String) :
    GenericCardTemplate :=
  buildFrom ((CardBuilder.new "zh").header "Network Submission Failed"
      (some "failed") none none)
    [TopCall.metadata "Network Set" network_set_name,
     TopCall.metadata "Error" error_message,
     TopCall.metadata "Submitted" (toString submitted_count),
     TopCall.metadata "Group" group]

/-- Modelled from the spec: workflow factory `job_submission_start` of the
missing `templates.py`; its header uses the running status, whose color is
pinned to wathet by `test_task_submission_start`. -/
def job_submission_start (job_title : String) (desc : String)
    (group : String) (pfx : String) : GenericCardTemplate :=
  buildFrom ((CardBuilder.new "zh").header "Job Submission Started"
      (some "running") none none)
    [TopCall.metadata "Job" job_title,
     TopCall.metadata "Description" desc,
     TopCall.metadata "Group" group,
     TopCall.metadata "Prefix" pfx]

/-- Modelled from the spec: workflow factory `job_submission_complete` of
the missing `templates.py`; although the event is a completion, its header
color is pinned to wathet — not green — by `test_task_submission_complete`,
modelled as passing the running status. -/
def job_submission_complete (job_title : String) (submitted_count : Nat)
    (group : String) (pfx : String) : GenericCardTemplate :=
  buildFrom ((CardBuilder.new "zh").header "Job Submission Complete"
      (some "running") none none)
    [TopCall.metadata "Job" job_title,
     TopCall.metadata "Submitted" (toString submitted_count),
     TopCall.metadata "Group" group,
     TopCall.metadata "Prefix" pfx]

/-- Modelled from the spec: workflow factory `job_submission_failure` of
the missing `templates.py`; its header uses the failed status, whose color
is pinned to red by `test_task_submission_failure`. -/
def job_submission_failure (job_title : String) (error_message : String)
    (submitted_count : Nat) (group : String) : GenericCardTemplate :=
  buildFrom ((CardBuilder.new "zh").header "Job Submission Failed"
      (some "failed") none none)
    [TopCall.metadata "Job" job_title,
     TopCall.metadata "Error" error_message,
     TopCall.metadata "Submitted" (toString submitted_count),
     TopCall.metadata "Group" group]

/-- Modelled from the spec: workflow factory `task_set_progress` of the
missing `templates.py`.  Its header color is pinned to blue by
`test_task_set_progress` even though the test passes the running overall
status; modelled as passing the info status regardless of the
`overall_status` argument. -/
def task_set_progress (task_sets_progress : List (String × Nat × Nat))
    (overall_status : String) : GenericCardTemplate :=
  buildFrom ((CardBuilder.new "zh").header "Task Set Progress"
      (some "info") none none)
    (TopCall.metadata "Overall Status" overall_status ::
      task_sets_progress.map (fun p =>
        TopCall.metadata p.1 (toString p.2.1 ++ "/" ++ toString p.2.2)))

/-- Modelled from the spec: workflow factory `result_collection_start` of
the missing `templates.py`.  Its header color is pinned to purple by
`test_result_collection_start`; since purple is outside the range of the
status-to-color mapping, it is modelled as an explicit color argument. -/
def result_collection_start (task_set_names : List String)
    (group : String) : GenericCardTemplate :=
  buildFrom ((CardBuilder.new "zh").header "Result Collection Started"
      none (some "purple") none)
    [TopCall.metadata "Task Sets" (String.intercalate ", " task_set_names),
     TopCall.metadata "Group" group]

/-- Modelled from the spec: workflow factory `result_collection_complete`
of the missing `templates.py`; its header color is pinned to purple by
`test_result_collection_complete`, modelled as an explicit color
argument. -/
def result_collection_complete (task_set_names : List String)
    (job_title : String) (group : String) (pfx : String) (msg : String) :
    GenericCardTemplate :=
  buildFrom ((CardBuilder.new "zh").header "Result Collection Complete"
      none (some "purple") none)
    [TopCall.metadata "Task Sets" (String.intercalate ", " task_set_names),
     TopCall.metadata "Job" job_title,
     TopCall.metadata "Group" group,
     TopCall.metadata "Prefix" pfx,
     TopCall.markdown msg]

/-- Modelled from the spec: workflow factory `comparison_complete` of the
missing `templates.py`; its header color is pinned to orange by
`test_comparison_complete`, modelled as passing the warning status. -/
def comparison_complete (comparison_name : String) (task_set_count : Nat)
    (result_rows : Nat) (result_columns : Nat) : GenericCardTemplate :=
  buildFrom ((CardBuilder.new "zh").header "Comparison Complete"
      (some "warning") none none)
    [TopCall.metadata "Comparison" comparison_name,
     TopCall.metadata "Task Sets" (toString task_set_count),
     TopCall.metadata "Rows" (toString result_rows),
     TopCall.metadata "Columns" (toString result_columns)]

/-- Modelled from the spec: workflow factory `job_complete` of the missing
`templates.py`; its header derives from the success flag (success status on
success, failed status otherwise), pinned green-on-success by
`test_job_complete`. -/
def job_complete (job_title : String) (success : Bool) (status : Int)
    (group : String) (pfx : String) : GenericCardTemplate :=
  buildFrom ((CardBuilder.new "zh").header "Job Complete"
      (some (if success then "success" else "failed")) none none)
    [TopCall.metadata "Job" job_title,
     TopCall.metadata "Exit Status" (toString status),
     TopCall.metadata "Group" group,
     TopCall.metadata "Prefix" pfx]

end WorkflowTemplates

/-! Helper lemmas shared by the claim theorems. -/

theorem runOps_append (xs : List Op) :
    ∀ (ys : List Op) (b : CardBuilder),
      runOps b (xs ++ ys) = (runOps b xs).bind (fun b2 => runOps b2 ys) := by
  induction xs with
  | nil =>
    intro ys b
    rfl
  | cons op rest ih =>
    intro ys b
    simp only [List.cons_append, runOps]
    cases hstep : step b op with
    | ok b2 => exact ih ys b2
    | error e => rfl

theorem step_language (op : Op) (b b2 : CardBuilder)
    (h : step b op = .ok b2) : b2.language = b.language := by
  cases op <;>
    cases hoc : b.openColumns <;>
    simp only [step, CardBuilder.header, CardBuilder.metadata,
      CardBuilder.metadata_block, CardBuilder.markdown, CardBuilder.divider,
      CardBuilder.collapsible, CardBuilder.add_block, CardBuilder.appendBlock,
      CardBuilder.columns, CardBuilder.column, CardBuilder.end_columns, hoc,
      Except.ok.injEq, reduceCtorEq] at h <;>
    (subst h; rfl)

theorem runOps_language (ops : List Op) :
    ∀ (b b2 : CardBuilder), runOps b ops = .ok b2 →
      b2.language = b.language := by
  induction ops with
  | nil =>
    intro b b2 h
    simp only [runOps, Except.ok.injEq] at h
    subst h
    rfl
  | cons op rest ih =>
    intro b b2 h
    simp only [runOps] at h
    cases hstep : step b op with
    | ok b1 =>
      rw [hstep] at h
      exact (ih b1 b2 h).trans (step_language op b b1 hstep)
    | error e =>
      rw [hstep] at h
      exact absurd h (by simp)

theorem runCols (cols : List ColArgs) :
    ∀ (b : CardBuilder) (acc : List Json), b.openColumns = some acc →
      runOps b (cols.map (fun a => Op.column a.title a.value a.width a.weight)) =
        .ok ⟨b.language, b.headerBlock, b.body,
             some (acc ++ cols.map ColArgs.block)⟩ := by
  induction cols with
  | nil =>
    intro b acc h
    simp only [List.map_nil, runOps, List.append_nil, Except.ok.injEq]
    rw [← h]
  | cons a rest ih =>
    intro b acc h
    simp only [List.map_cons, runOps, step, CardBuilder.column, h]
    rw [ih _ (acc ++ [colBlock a.title a.value a.width a.weight]) rfl]
    simp [ColArgs.block, List.append_assoc]

theorem runTop (c : TopCall) (b : CardBuilder) (h : b.openColumns = none) :
    runOps b c.toOps =
      .ok ⟨b.language, b.headerBlock, b.body ++ [c.blockOf], none⟩ := by
  cases c with
  | metadata k v =>
    simp [TopCall.toOps, TopCall.blockOf, runOps, step, CardBuilder.metadata,
      CardBuilder.appendBlock, h]
  | metadata_block fs =>
    simp [TopCall.toOps, TopCall.blockOf, runOps, step,
      CardBuilder.metadata_block, CardBuilder.appendBlock, h]
  | markdown t =>
    simp [TopCall.toOps, TopCall.blockOf, runOps, step, CardBuilder.markdown,
      CardBuilder.appendBlock, h]
  | divider =>
    simp [TopCall.toOps, TopCall.blockOf, runOps, step, CardBuilder.divider,
      CardBuilder.appendBlock, h]
  | collapsible t c e =>
    simp [TopCall.toOps, TopCall.blockOf, runOps, step,
      CardBuilder.collapsible, CardBuilder.appendBlock, h]
  | colgroup cols =>
    simp only [TopCall.toOps, TopCall.blockOf, runOps, step,
      CardBuilder.columns, h]
    rw [runOps_append, runCols cols _ [] rfl]
    simp only [Except.bind, runOps, step, CardBuilder.end_columns,
      List.nil_append, Except.ok.injEq]

theorem runOps_calls (script : List TopCall) :
    ∀ (b : CardBuilder), b.openColumns = none →
      runOps b (callsToOps script) =
        .ok ⟨b.language, b.headerBlock,
             b.body ++ script.map TopCall.blockOf, none⟩ := by
  induction script with
  | nil =>
    intro b h
    simp only [callsToOps, List.map_nil, List.flatten_nil, runOps,
      List.map, List.append_nil, Except.ok.injEq]
    rw [← h]
  | cons c rest ih =>
    intro b h
    have hsplit : callsToOps (c :: rest) = c.toOps ++ callsToOps rest := by
      simp [callsToOps]
    rw [hsplit, runOps_append, runTop c b h]
    rw [show (Except.ok (⟨b.language, b.headerBlock, b.body ++ [c.blockOf],
          none⟩ : CardBuilder) : Except String CardBuilder).bind
          (fun b2 => runOps b2 (callsToOps rest)) =
        runOps ⟨b.language, b.headerBlock, b.body ++ [c.blockOf], none⟩
          (callsToOps rest) from rfl]
    rw [ih _ rfl]
    simp [List.append_assoc]

theorem hasNull_colBlock (t v w : String) (wt : Int) :
    (colBlock t v w wt).hasNull = false := by
  by_cases hw : w = "weighted" <;>
    simp [colBlock, Blocks.column, Blocks.markdown, hw, Json.hasNull,
      Json.anyNull, Json.anyNullKV]

theorem anyNull_mapBlock (cols : List ColArgs) :
    Json.anyNull (cols.map ColArgs.block) = false := by
  induction cols with
  | nil => rfl
  | cons a rest ih =>
    simp [Json.anyNull, ColArgs.block, hasNull_colBlock, ih]

theorem hasNull_blockOf (c : TopCall) : c.blockOf.hasNull = false := by
  cases c with
  | metadata k v => rfl
  | metadata_block fs => rfl
  | markdown t => rfl
  | divider => rfl
  | collapsible t c e => rfl
  | colgroup cols =>
    simp [TopCall.blockOf, Blocks.column_set, Json.hasNull, Json.anyNullKV,
      Json.anyNull, anyNull_mapBlock]

theorem anyNull_script (script : List TopCall) :
    Json.anyNull (script.map TopCall.blockOf) = false := by
  induction script with
  | nil => rfl
  | cons c rest ih => simp [Json.anyNull, hasNull_blockOf, ih]

theorem hasNull_headerBlock (t tmpl : String) (sub : Option String) :
    (Blocks.header t tmpl sub).hasNull = false := by
  cases sub <;> rfl

theorem hasNull_card (els : List Json) (hdr cfg : Json) (sv : String)
    (h1 : hdr.hasNull = false) (h2 : Json.anyNull els = false)
    (h3 : cfg.hasNull = false) :
    (Blocks.card els hdr sv cfg).hasNull = false := by
  simp [Blocks.card, Json.hasNull, Json.anyNullKV, Json.anyNull, h1, h2, h3]

/-- C1: calling column with no column-set context open fails synchronously
with the state error message pinned by the tests, calling end_columns with
none open fails synchronously with its pinned state error message, and
calling build while a column-set context is still open fails with its
pinned state error message; the first two errors surface at the offending
call in any call sequence, not at build time. -/
theorem spec_c1 :
    (∀ (b : CardBuilder), b.openColumns = none →
      (∀ t v w wt, b.column t v w wt =
        Except.error "Call .columns() before .column()") ∧
      b.end_columns = Except.error "No column context to end") ∧
    (∀ (b : CardBuilder) (cols : List Json), b.openColumns = some cols →
      b.build = Except.error "Unclosed column context") ∧
    (∀ (b : CardBuilder) (rest : List Op), b.openColumns = none →
      (∀ t v w wt, runOps b (Op.column t v w wt :: rest) =
        Except.error "Call .columns() before .column()") ∧
      runOps b (Op.end_columns :: rest) =
        Except.error "No column context to end") := by
  refine ⟨?_, ?_, ?_⟩
  · intro b h
    exact ⟨fun t v w wt => by simp [CardBuilder.column, h],
           by simp [CardBuilder.end_columns, h]⟩
  · intro b cols h
    simp [CardBuilder.build, h]
  · intro b rest h
    exact ⟨fun t v w wt => by simp [runOps, step, CardBuilder.column, h],
           by simp [runOps, step, CardBuilder.end_columns, h]⟩

/-- Witness for C1 at the fresh builder and at a builder with an open
column-set context. -/
theorem spec_c1_witness :
    (CardBuilder.new).column "A" "1" "auto" 1 =
      Except.error "Call .columns() before .column()" ∧
    (CardBuilder.new).end_columns =
      Except.error "No column context to end" ∧
    CardBuilder.build ⟨"zh", none, [], some []⟩ =
      Except.error "Unclosed column context" ∧
    runOps (CardBuilder.new) [Op.column "A" "1" "auto" 1, Op.markdown "x"] =
      Except.error "Call .columns() before .column()" :=
  ⟨(spec_c1.1 CardBuilder.new rfl).1 "A" "1" "auto" 1,
   (spec_c1.1 CardBuilder.new rfl).2,
   spec_c1.2.1 ⟨"zh", none, [], some []⟩ [] rfl,
   (spec_c1.2.2 CardBuilder.new [Op.markdown "x"] rfl).1 "A" "1" "auto" 1⟩

/-- C2: while a column-set context is open, every append of a non-column
top-level block (metadata, metadata_block, markdown, divider, collapsible,
add_block) is rejected with a state error, while column and end_columns
are permitted. -/
theorem spec_c2 :
    ∀ (b : CardBuilder) (cols : List Json), b.openColumns = some cols →
      (∀ k v, b.metadata k v = Except.error openColumnsMsg) ∧
      (∀ fs, b.metadata_block fs = Except.error openColumnsMsg) ∧
      (∀ t, b.markdown t = Except.error openColumnsMsg) ∧
      b.divider = Except.error openColumnsMsg ∧
      (∀ t c e, b.collapsible t c e = Except.error openColumnsMsg) ∧
      (∀ blk, b.add_block blk = Except.error openColumnsMsg) ∧
      (∀ t v w wt, ∃ b2, b.column t v w wt = Except.ok b2) ∧
      (∃ b2, b.end_columns = Except.ok b2) := by
  intro b cols h
  refine ⟨fun k v => ?_, fun fs => ?_, fun t => ?_, ?_, fun t c e => ?_,
    fun blk => ?_,
    fun t v w wt =>
      ⟨{ b with openColumns := some (cols ++ [colBlock t v w wt]) }, ?_⟩,
    ⟨{ b with body := b.body ++ [Blocks.column_set cols],
              openColumns := none }, ?_⟩⟩ <;>
    simp [CardBuilder.metadata, CardBuilder.metadata_block,
      CardBuilder.markdown, CardBuilder.divider, CardBuilder.collapsible,
      CardBuilder.add_block, CardBuilder.appendBlock, CardBuilder.column,
      CardBuilder.end_columns, h]

/-- Witness for C2 at a builder whose column-set context is open and
empty. -/
theorem spec_c2_witness :
    CardBuilder.metadata ⟨"zh", none, [], some []⟩ "K" "V" =
      Except.error openColumnsMsg ∧
    CardBuilder.divider ⟨"zh", none, [], some []⟩ =
      Except.error openColumnsMsg ∧
    (∃ b2, CardBuilder.column ⟨"zh", none, [], some []⟩ "A" "1" "auto" 1 =
      Except.ok b2) :=
  ⟨(spec_c2 ⟨"zh", none, [], some []⟩ [] rfl).1 "K" "V",
   (spec_c2 ⟨"zh", none, [], some []⟩ [] rfl).2.2.2.1,
   (spec_c2 ⟨"zh", none, [], some []⟩ [] rfl).2.2.2.2.2.2.1 "A" "1" "auto" 1⟩

/-- C4: the status-to-color resolution is total and deterministic — any
status outside the fixed table maps to the fixed fallback color, an
explicit color argument always overrides the derived color in the header
operation, and the table maps running/pending to wathet, success/completed
to green, failed/error to red, warning to orange and info to blue. -/
theorem spec_c4 :
    (∀ s : String, s ≠ "running" → s ≠ "pending" → s ≠ "success" →
      s ≠ "completed" → s ≠ "failed" → s ≠ "error" → s ≠ "warning" →
      s ≠ "info" → statusColor s = "blue") ∧
    (∀ (b : CardBuilder) (t c : String) (st sub : Option String),
      ((b.header t st (some c) sub).headerBlock).bind
        (fun hd => hd.getKey "template") = some (Json.str c)) ∧
    (statusColor "running" = "wathet" ∧ statusColor "pending" = "wathet" ∧
     statusColor "success" = "green" ∧ statusColor "completed" = "green" ∧
     statusColor "failed" = "red" ∧ statusColor "error" = "red" ∧
     statusColor "warning" = "orange" ∧ statusColor "info" = "blue") := by
  refine ⟨?_, ?_, by decide⟩
  · intro s h1 h2 h3 h4 h5 h6 h7 h8
    simp [statusColor, h1, h2, h3, h4, h5, h6, h7, h8]
  · intro b t c st sub
    rfl

/-- Witness for C4: an unrecognized status maps to the fallback color, and
an explicit color argument overrides a success status. -/
theorem spec_c4_witness :
    statusColor "bogus" = "blue" ∧
    (((CardBuilder.new "zh").header "T" (some "success") (some "purple")
        none).headerBlock).bind (fun hd => hd.getKey "template") =
      some (Json.str "purple") :=
  ⟨spec_c4.1 "bogus" (by decide) (by decide) (by decide) (by decide)
     (by decide) (by decide) (by decide) (by decide),
   spec_c4.2.1 (CardBuilder.new "zh") "T" "purple" (some "success") none⟩

/-- C5: for every sequence of successful top-level append calls (with a
completed columns-to-end_columns group counting as one appended block),
the body receives exactly one block per call, appended in call order after
the previously accumulated blocks, and the built document's body elements
are exactly those blocks in call order. -/
theorem spec_c5 :
    (∀ (script : List TopCall) (b : CardBuilder), b.openColumns = none →
      runOps b (callsToOps script) =
        Except.ok ⟨b.language, b.headerBlock,
          b.body ++ script.map TopCall.blockOf, none⟩) ∧
    (∀ (script : List TopCall) (L t : String) (st c sub : Option String),
      ∃ tem, (runOps ((CardBuilder.new L).header t st c sub)
          (callsToOps script)).bind CardBuilder.build = Except.ok tem ∧
        tem.card.getKey "body" =
          some (Json.obj [("elements",
            Json.arr (script.map TopCall.blockOf))])) := by
  refine ⟨fun script b h => runOps_calls script b h, ?_⟩
  intro script L t st c sub
  rw [runOps_calls script ((CardBuilder.new L).header t st c sub) rfl]
  exact ⟨_, rfl, rfl⟩

/-- Witness for C5 at a concrete two-call script on the fresh builder. -/
theorem spec_c5_witness :
    runOps (CardBuilder.new)
        (callsToOps [TopCall.metadata "K" "V", TopCall.divider]) =
      Except.ok ⟨"zh", none,
        [Blocks.markdown "**K:** V", dividerBlock], none⟩ :=
  spec_c5.1 [TopCall.metadata "K" "V", TopCall.divider] CardBuilder.new rfl

/-- C6: the call sequence columns, column a, column b, end_columns appends
exactly one body block, a column_set holding exactly the two columns in
call order, and a sequence of n such completed groups appends exactly n
body blocks, each tagged column_set. -/
theorem spec_c6 :
    (∀ (b : CardBuilder) (a1 a2 : ColArgs), b.openColumns = none →
      runOps b [Op.columns,
          Op.column a1.title a1.value a1.width a1.weight,
          Op.column a2.title a2.value a2.width a2.weight,
          Op.end_columns] =
        Except.ok ⟨b.language, b.headerBlock,
          b.body ++ [Blocks.column_set [a1.block, a2.block]], none⟩ ∧
      (Blocks.column_set [a1.block, a2.block]).getKey "tag" =
        some (Json.str "column_set")) ∧
    (∀ (groups : List (List ColArgs)) (b : CardBuilder),
      b.openColumns = none →
      runOps b (callsToOps (groups.map TopCall.colgroup)) =
        Except.ok ⟨b.language, b.headerBlock,
          b.body ++ groups.map
            (fun g => Blocks.column_set (g.map ColArgs.block)), none⟩ ∧
      (groups.map (fun g => Blocks.column_set (g.map ColArgs.block))).length
        = groups.length ∧
      ∀ blk ∈ groups.map (fun g => Blocks.column_set (g.map ColArgs.block)),
        blk.getKey "tag" = some (Json.str "column_set")) := by
  constructor
  · intro b a1 a2 h
    exact ⟨runTop (TopCall.colgroup [a1, a2]) b h, rfl⟩
  · intro groups b h
    have h1 := runOps_calls (groups.map TopCall.colgroup) b h
    rw [List.map_map] at h1
    refine ⟨h1, List.length_map _ _, ?_⟩
    intro blk hmem
    rw [List.mem_map] at hmem
    obtain ⟨g, _, hg⟩ := hmem
    rw [← hg]
    rfl

/-- Witness for C6 at two concrete column groups on the fresh builder. -/
theorem spec_c6_witness :
    runOps (CardBuilder.new)
        [Op.columns, Op.column "Left" "Value1" "auto" 1,
         Op.column "Right" "Value2" "weighted" 1, Op.end_columns] =
      Except.ok ⟨"zh", none,
        [Blocks.column_set
          [colBlock "Left" "Value1" "auto" 1,
           colBlock "Right" "Value2" "weighted" 1]], none⟩ ∧
    runOps (CardBuilder.new)
        (callsToOps [TopCall.colgroup [⟨"A", "1", "auto", 1⟩],
                     TopCall.colgroup [⟨"C", "3", "auto", 1⟩]]) =
      Except.ok ⟨"zh", none,
        [Blocks.column_set [colBlock "A" "1" "auto" 1],
         Blocks.column_set [colBlock "C" "3" "auto" 1]], none⟩ :=
  ⟨(spec_c6.1 CardBuilder.new ⟨"Left", "Value1", "auto", 1⟩
      ⟨"Right", "Value2", "weighted", 1⟩ rfl).1,
   (spec_c6.2 [[⟨"A", "1", "auto", 1⟩], [⟨"C", "3", "auto", 1⟩]]
      CardBuilder.new rfl).1⟩

/-- C7: omitted optional fields are entirely absent from constructed
blocks, never present as null or empty placeholders — a header built with
only its mandatory title and template carries exactly those two keys, a
non-weighted column carries no weight key — and every document produced by
build from the high-level API contains no null anywhere. -/
theorem spec_c7 :
    (∀ t tmpl, (Blocks.header t tmpl).keys = ["title", "template"]) ∧
    (∀ t tmpl, Blocks.header t tmpl =
      Json.obj [("title", Blocks.plainText t), ("template", Json.str tmpl)]) ∧
    (∀ (els : List Json) (w : String) (wt : Int), w ≠ "weighted" →
      (Blocks.column els w wt).keys = ["tag", "elements", "width"]) ∧
    (∀ (L t : String) (st c sub : Option String) (script : List TopCall),
      ∃ tem, (runOps ((CardBuilder.new L).header t st c sub)
          (callsToOps script)).bind CardBuilder.build = Except.ok tem ∧
        tem.card.hasNull = false) := by
  refine ⟨fun t tmpl => rfl, fun t tmpl => rfl, ?_, ?_⟩
  · intro els w wt hw
    simp [Blocks.column, Json.keys, hw]
  · intro L t st c sub script
    rw [runOps_calls script ((CardBuilder.new L).header t st c sub) rfl]
    refine ⟨_, rfl, ?_⟩
    exact hasNull_card _ _ _ _
      (hasNull_headerBlock t (resolveColor st c) sub)
      (anyNull_script script) rfl

/-- Witness for C7: a concrete non-weighted column has no weight key, and
the other conjuncts at concrete inputs. -/
theorem spec_c7_witness :
    (Blocks.column [] "auto" 1).keys = ["tag", "elements", "width"] ∧
    (Blocks.header "Title" "blue").keys = ["title", "template"] :=
  ⟨spec_c7.2.2.1 [] "auto" 1 (by decide),
   spec_c7.1 "Title" "blue"⟩

/-- C8: every document produced by build has exactly the top-level keys
schema, header, body and config in the wire shape — the schema tag equals
the 2.0 version string and the body blocks sit under the elements key of
the body object — and the assembler stamps any given schema version into
the schema key. -/
theorem spec_c8 :
    (∀ (b : CardBuilder), b.openColumns = none →
      ∃ tem, b.build = Except.ok tem ∧
        tem.card.keys = ["schema", "header", "body", "config"] ∧
        tem.card.getKey "schema" = some (Json.str "2.0") ∧
        tem.card.getKey "body" =
          some (Json.obj [("elements", Json.arr b.body)]) ∧
        (∃ hd, tem.card.getKey "header" = some hd) ∧
        (∃ cfg, tem.card.getKey "config" = some cfg)) ∧
    (∀ (els : List Json) (hdr cfg : Json) (sv : String),
      (Blocks.card els hdr sv cfg).keys =
        ["schema", "header", "body", "config"] ∧
      (Blocks.card els hdr sv cfg).getKey "schema" = some (Json.str sv)) := by
  constructor
  · intro b h
    refine ⟨⟨b.language, Blocks.card b.body
        (b.headerBlock.getD (Blocks.header "" "blue"))
        "2.0" Blocks.config_textsize_normal_v2⟩, ?_, rfl, rfl, rfl,
      ⟨_, rfl⟩, ⟨_, rfl⟩⟩
    simp [CardBuilder.build, h]
  · intro els hdr cfg sv
    exact ⟨rfl, rfl⟩

/-- Witness for C8 at the fresh builder. -/
theorem spec_c8_witness :
    ∃ tem, (CardBuilder.new).build = Except.ok tem ∧
      tem.card.keys = ["schema", "header", "body", "config"] ∧
      tem.card.getKey "schema" = some (Json.str "2.0") ∧
      tem.card.getKey "body" = some (Json.obj [("elements", Json.arr [])]) ∧
      (∃ hd, tem.card.getKey "header" = some hd) ∧
      (∃ cfg, tem.card.getKey "config" = some cfg) :=
  spec_c8.1 CardBuilder.new rfl

/-- C9: metadata appends exactly one markdown-tagged block whose content is
the single formatted key-value line, and the concrete scenario — header
with title T and success status, metadata K V, then build — yields a
document whose header template is green and whose body elements are
exactly the one markdown block with the formatted content. -/
theorem spec_c9 :
    (∀ (b : CardBuilder) (k v : String), b.openColumns = none →
      b.metadata k v = Except.ok ⟨b.language, b.headerBlock,
        b.body ++ [Blocks.markdown ("**" ++ k ++ ":** " ++ v)], none⟩ ∧
      (Blocks.markdown ("**" ++ k ++ ":** " ++ v)).getKey "tag" =
        some (Json.str "markdown")) ∧
    (∃ tem, (((CardBuilder.new "zh").header "T" (some "success") none
          none).metadata "K" "V").bind CardBuilder.build = Except.ok tem ∧
      headerTemplateOf tem.card = some (Json.str "green") ∧
      tem.card.getKey "body" =
        some (Json.obj [("elements",
          Json.arr [Blocks.markdown "**K:** V"])])) := by
  constructor
  · intro b k v h
    refine ⟨?_, rfl⟩
    simp [CardBuilder.metadata, CardBuilder.appendBlock, metaLine, h]
  · exact ⟨_, rfl, rfl, rfl⟩

/-- Witness for C9 at the fresh builder and a concrete key-value pair. -/
theorem spec_c9_witness :
    CardBuilder.metadata (CardBuilder.new) "K" "V" =
      Except.ok ⟨"zh", none, [Blocks.markdown "**K:** V"], none⟩ ∧
    (Blocks.markdown "**K:** V").getKey "tag" = some (Json.str "markdown") :=
  spec_c9.1 CardBuilder.new "K" "V" rfl

/-- C10: the builder's language tag defaults to zh both for a fresh
CardBuilder and for create_custom_template, and a builder constructed with
any language L keeps L unchanged through every successful call sequence
and into the template produced by build. -/
theorem spec_c10 :
    (CardBuilder.new).language = "zh" ∧
    (create_custom_template).language = "zh" ∧
    (∀ (L : String) (ops : List Op) (b2 : CardBuilder),
      runOps (CardBuilder.new L) ops = Except.ok b2 →
      b2.language = L ∧
      ∀ tem, b2.build = Except.ok tem → tem.language = L) := by
  refine ⟨rfl, rfl, ?_⟩
  intro L ops b2 h
  have hl := runOps_language ops (CardBuilder.new L) b2 h
  refine ⟨hl, ?_⟩
  intro tem htem
  cases hoc : b2.openColumns with
  | some acc => simp [CardBuilder.build, hoc] at htem
  | none =>
    simp only [CardBuilder.build, hoc, Except.ok.injEq] at htem
    rw [← htem]
    exact hl

/-- Witness for C10 at a builder constructed with the en language tag and
a one-call sequence. -/
theorem spec_c10_witness :
    GenericCardTemplate.language
      ⟨"en", Blocks.card [Blocks.markdown "x"] (Blocks.header "" "blue")
        "2.0" Blocks.config_textsize_normal_v2⟩ = "en" :=
  (spec_c10.2.2 "en" [Op.markdown "x"]
    ⟨"en", none, [Blocks.markdown "x"], none⟩ rfl).2 _ rfl

theorem headerTemplateOf_buildFrom (t : String) (st c sub : Option String)
    (L : String) (calls : List TopCall) :
    headerTemplateOf ((WorkflowTemplates.buildFrom
        ((CardBuilder.new L).header t st c sub) calls).generate) =
      some (Json.str (resolveColor st c)) := by
  unfold WorkflowTemplates.buildFrom
  rw [runOps_calls calls ((CardBuilder.new L).header t st c sub) rfl]
  rfl

theorem statusColor_ne_purple (s : String) :
    (statusColor s == "purple") = false := by
  unfold statusColor
  repeat' split
  all_goals rfl

/-- C3 counterexample: the task_set_progress factory called with the
running overall status produces a header template of blue, while the fixed
status-to-color mapping derives wathet from the running status, so the
produced color differs from the status-derived color. -/
theorem spec_c3_counterexample :
    headerTemplateOf ((WorkflowTemplates.task_set_progress
        [("task-set-1", 50, 100), ("task-set-2", 75, 100),
         ("task-set-3", 100, 100)] "running").generate) =
      some (Json.str "blue") ∧
    statusColor "running" = "wathet" ∧
    headerTemplateOf ((WorkflowTemplates.task_set_progress
        [("task-set-1", 50, 100), ("task-set-2", 75, 100),
         ("task-set-3", 100, 100)] "running").generate) ≠
      some (Json.str (statusColor "running")) := by
  refine ⟨rfl, rfl, ?_⟩
  intro h
  exact absurd (Json.str.inj (Option.some.inj h)) (by decide)

/-- C3 amended: each workflow template factory produces a fixed,
per-factory header color as pinned by the repository's test suite — the
submission start factories and job_submission_complete produce wathet, the
network completion and successful job completion produce green, the failure
factories produce red, task_set_progress produces blue regardless of its
overall-status argument, the result-collection factories produce purple (a
color outside the range of the status-to-color mapping), and
comparison_complete produces orange — rather than always the color the
fixed mapping derives from the event's semantic status. -/
theorem spec_c3_amended :
    (∀ nsn nt g p, headerTemplateOf
      ((WorkflowTemplates.network_submission_start nsn nt g p).generate) =
        some (Json.str "wathet")) ∧
    (∀ nsn n g p d, headerTemplateOf
      ((WorkflowTemplates.network_submission_complete nsn n g p d).generate)
        = some (Json.str "green")) ∧
    (∀ nsn e n g, headerTemplateOf
      ((WorkflowTemplates.network_submission_failure nsn e n g).generate) =
        some (Json.str "red")) ∧
    (∀ j d g p, headerTemplateOf
      ((WorkflowTemplates.job_submission_start j d g p).generate) =
        some (Json.str "wathet")) ∧
    (∀ j n g p, headerTemplateOf
      ((WorkflowTemplates.job_submission_complete j n g p).generate) =
        some (Json.str "wathet")) ∧
    (∀ j e n g, headerTemplateOf
      ((WorkflowTemplates.job_submission_failure j e n g).generate) =
        some (Json.str "red")) ∧
    (∀ ts os, headerTemplateOf
      ((WorkflowTemplates.task_set_progress ts os).generate) =
        some (Json.str "blue")) ∧
    (∀ ns g, headerTemplateOf
      ((WorkflowTemplates.result_collection_start ns g).generate) =
        some (Json.str "purple")) ∧
    (∀ ns j g p m, headerTemplateOf
      ((WorkflowTemplates.result_collection_complete ns j g p m).generate)
        = some (Json.str "purple")) ∧
    (∀ cn n r k, headerTemplateOf
      ((WorkflowTemplates.comparison_complete cn n r k).generate) =
        some (Json.str "orange")) ∧
    (∀ j st g p, headerTemplateOf
      ((WorkflowTemplates.job_complete j true st g p).generate) =
        some (Json.str "green") ∧
      headerTemplateOf
        ((WorkflowTemplates.job_complete j false st g p).generate) =
          some (Json.str "red")) ∧
    (∀ s, (statusColor s == "purple") = false) := by
  refine ⟨fun nsn nt g p => ?_, fun nsn n g p d => ?_, fun nsn e n g => ?_,
    fun j d g p => ?_, fun j n g p => ?_, fun j e n g => ?_,
    fun ts os => ?_, fun ns g => ?_, fun ns j g p m => ?_,
    fun cn n r k => ?_, fun j st g p => ⟨?_, ?_⟩,
    fun s => statusColor_ne_purple s⟩ <;>
    exact headerTemplateOf_buildFrom _ _ _ _ _ _
